import Mathlib

/-!
Shallow embedding of the `dbmanager` Go repository (titolins/dbmanager).

The repository has three near-duplicate variants of a test-fixture helper:

* `src/manager.go` (first unit, package `dbmanager`): `ResolveTestRecord(tableName, opts...)`
  performing a single insert with the `ON CONFLICT DO NOTHING` suffix — embedded below in
  namespace `Simple`.
* `src/manager.go` (second unit, package `main`): `ResolveTestRecord(tableName, stringID, opts...)`
  performing a transactional existence check followed by a conditional insert — embedded below in
  namespace `Tx`.
* `src/unnamed/part_000` (package `dbmanager`): `Create(tableName, opts...)` plus the
  `SetFieldValue` option constructor — embedded below at top level.

Field values (Go `interface{}`) are modelled by the tagged type `Value`: the only dynamic test
the code performs on a value is the `sq.Sqlizer` type assertion in `parseSelectValues`, so a
value is either a literal scalar (`Value.lit`) or an opaque SQL-expression placeholder
(`Value.expr`, e.g. `sq.Expr("CURRENT_TIMESTAMP")`), which is exactly what implements
`sq.Sqlizer`.  Go maps are modelled as association lists with Go-map `get`/`set` semantics
(a Go map always has unique keys, so theorems about arbitrary lists carry a `Nodup` hypothesis
on the key list where it matters).

Database interaction is modelled by an oracle `DbEnv` giving the outcome of each external
call (`db.Begin`, running the existence-check select, running the insert, `tx.Rollback`,
`tx.Commit`), and each operation returns the threaded manager state, the list of database
events it performed, and an outcome (`ok` or a fatal test abort).  Fatal messages are modelled
as an inductive whose constructors carry exactly the data interpolated into the corresponding
`t.Fatalf` format string in the source.  `ToSql` of the squirrel insert builder fails when no
values are set ("insert statements must have at least one set of values"); `ToSql` of the
select builder cannot fail here because `Select("")` always supplies one column.
-/

/-- A dynamically typed field value: a literal scalar, or an opaque SQL-expression
placeholder (anything implementing `sq.Sqlizer`, e.g. `sq.Expr("CURRENT_TIMESTAMP")`). -/
inductive Value where
  | lit : String → Value
  | expr : String → Value
deriving DecidableEq, Repr

/-- The `sq.Sqlizer` type assertion of `parseSelectValues`: true exactly on
opaque SQL-expression values. -/
def Value.isSqlizer : Value → Bool
  | .lit _ => false
  | .expr _ => true

/-- Go type `RelationValues = map[string]interface{}`, as an association list. -/
abbrev RelationValues := List (String × Value)

/-- Go map read `m[k]`. -/
def RelationValues.get (m : RelationValues) (k : String) : Option Value :=
  (m.find? (fun p => p.1 == k)).map (fun p => p.2)

/-- Go map write `m[k] = v`: replace the binding if the key is present, else add it. -/
def RelationValues.set (m : RelationValues) (k : String) (v : Value) : RelationValues :=
  match m with
  | [] => [(k, v)]
  | p :: ps => if p.1 == k then (k, v) :: ps else p :: RelationValues.set ps k v

/-- Go type `RelationValuesOption = func(RelationValues)`: a mutator of the value set,
modelled as a pure map transformer. -/
abbrev RelationValuesOption := RelationValues → RelationValues

/-- `SetFieldValue` (src/unnamed/part_000): the option setting field `f` to value `v`. -/
def SetFieldValue (f : String) (v : Value) : RelationValuesOption :=
  fun values => values.set f v

/-- Go map read `defaultRelationValues[relationName]` on the default value table. -/
def lookupRelation (tbl : List (String × RelationValues)) (name : String) :
    Option RelationValues :=
  (tbl.find? (fun p => p.1 == name)).map (fun p => p.2)

/-- The manager state: the default value table supplied at construction
(`defaultRelationValues` field of `dbManager`; the db handle, `*testing.T` and the
query builder are modelled externally). -/
structure DbManager where
  defaultRelationValues : List (String × RelationValues)
deriving DecidableEq, Repr

/-- The copy loop of `getDefaultRelationValues`:
`values := make(RelationValues); for k, v := range defaultValue { values[k] = v }`. -/
def copyValues (m : RelationValues) : RelationValues :=
  m.foldl (fun values p => values.set p.1 p.2) []

/-- A fatal test abort. Each constructor corresponds to one `t.Fatalf` call site in the
source and carries exactly the values interpolated into its format string. -/
inductive Fatal where
  | noDefaultValues (relation : String)
  | couldNotStartTransaction (err : String)
  | couldNotGenerateSql (relation : String) (err : String)
  | couldNotCreateRecord (relation : String) (err : String)
  | failedDuringCheckIfExisting (err : String)
  | failedToRollback (err : String)
  | couldNotCommit (err : String)
deriving DecidableEq, Repr

/-- The relation name carried by a fatal message, when the corresponding `Fatalf`
format string interpolates one. -/
def Fatal.relationName? : Fatal → Option String
  | .noDefaultValues r => some r
  | .couldNotGenerateSql r _ => some r
  | .couldNotCreateRecord r _ => some r
  | .failedDuringCheckIfExisting _ => none
  | .failedToRollback _ => none
  | .couldNotCommit _ => none
  | .couldNotStartTransaction _ => none

/-- `getDefaultRelationValues`: fatal on an unknown relation name, otherwise an
independent copy of the stored defaults. -/
def getDefaultRelationValues (dbMan : DbManager) (relationName : String) :
    Except Fatal RelationValues :=
  match lookupRelation dbMan.defaultRelationValues relationName with
  | none => .error (.noDefaultValues relationName)
  | some defaultValue => .ok (copyValues defaultValue)

/-- `relationValues`: a copy of the defaults for the relation with the option
functions applied in call order. -/
def relationValues (dbMan : DbManager) (relationName : String)
    (opts : List RelationValuesOption) : Except Fatal RelationValues :=
  match getDefaultRelationValues dbMan relationName with
  | .error f => .error f
  | .ok defaultVal => .ok (opts.foldl (fun values opt => opt values) defaultVal)

/-- `parseSelectValues`: the non-`Sqlizer` entries of the value set, collected into a
fresh map (expression-valued fields are dropped). -/
def parseSelectValues (originalValues : RelationValues) : RelationValues :=
  originalValues.foldl
    (fun values p => if p.2.isSqlizer then values else values.set p.1 p.2) []

/-- A parameterized select statement as built by the squirrel select builder. -/
structure SelectQuery where
  columns : List String
  table : String
  whereEq : RelationValues
  limit : Option Nat
deriving DecidableEq, Repr

/-- A parameterized insert statement as built by the squirrel insert builder. -/
structure InsertQuery where
  table : String
  setMap : RelationValues
  suffix : Option String
deriving DecidableEq, Repr

/-- `selectBuilder`: `queryBuilder.Select("").From(tableName)`. -/
def selectBuilder (tableName : String) : SelectQuery :=
  { columns := [""], table := tableName, whereEq := [], limit := none }

/-- `InsertBuilder.ToSql` of squirrel: fails when no values are set, otherwise
produces the statement. -/
def InsertQuery.toSql (q : InsertQuery) : Except String InsertQuery :=
  if q.setMap.isEmpty then .error "insert statements must have at least one set of values"
  else .ok q

/-- Outcome of running the existence-check select: a matching row, no rows
(`sql.ErrNoRows` from `row.Scan()`), or some other failure. -/
inductive CheckResult where
  | found
  | noRows
  | failure (e : String)
deriving DecidableEq, Repr

/-- Oracle for the external database calls: the outcome of `db.Begin`, of executing the
existence-check select, of executing an insert, and of `tx.Rollback` / `tx.Commit`
(`none` means success). -/
structure DbEnv where
  beginErr : Option String
  check : SelectQuery → CheckResult
  insertExec : InsertQuery → Option String
  rollbackErr : Option String
  commitErr : Option String

/-- A database interaction performed by an operation, in order. -/
inductive Event where
  | beganTx
  | ranCheckQuery (q : SelectQuery)
  | ranInsert (q : InsertQuery)
  | committed
  | rolledBack
deriving DecidableEq, Repr

/-- Result of a call: `ok`, or a fatal abort of the calling test. -/
inductive Outcome where
  | ok
  | fatal (f : Fatal)
deriving DecidableEq, Repr

/-- The full observable result of a call: the manager state left for subsequent calls,
the database events performed, and the outcome. -/
structure RunResult where
  manager : DbManager
  events : List Event
  outcome : Outcome
deriving DecidableEq, Repr

/-- The error value `checkIfExisting` returns: `sql.ErrNoRows`, or any other error. -/
inductive CheckErr where
  | noRows
  | other (e : String)
deriving DecidableEq, Repr

namespace Tx

/-- `insertBuilder` of the transactional variant: `queryBuilder.Insert(tableName)`
(no suffix, not bound to the db handle). -/
def insertBuilder (tableName : String) : InsertQuery :=
  { table := tableName, setMap := [], suffix := none }

/-- The existence-check statement built by `checkIfExisting`:
`selectBuilder(tableName).Where(sq.Eq(parseSelectValues(values))).Limit(1)`. -/
def checkQueryFor (tableName : String) (values : RelationValues) : SelectQuery :=
  { selectBuilder tableName with whereEq := parseSelectValues values, limit := some 1 }

/-- The insert statement built on the creation path:
`insertBuilder(tableName).SetMap(sq.Eq(values))`. -/
def insertQueryFor (tableName : String) (values : RelationValues) : InsertQuery :=
  { insertBuilder tableName with setMap := values }

/-- `checkIfExisting`: build the select (`Where` on the parsed values, `Limit(1)`),
run it in the transaction, scan the row.  Returns the events performed and the error
result (`none` = a row was found). -/
def checkIfExisting (env : DbEnv) (tableName : String) (values : RelationValues) :
    List Event × Option CheckErr :=
  let q := checkQueryFor tableName values
  ([.ranCheckQuery q],
    match env.check q with
    | .found => none
    | .noRows => some .noRows
    | .failure e => some (.other e))

/-- `rollback` followed by `t.Fatalf(after)`: `tx.Rollback` is attempted first; if it
fails, its own fatal fires and the subsequent `Fatalf` is never reached. -/
def rollbackThen (env : DbEnv) (after : Fatal) : Outcome :=
  match env.rollbackErr with
  | some e => .fatal (.failedToRollback e)
  | none => .fatal after

/-- `commit`: `tx.Commit`, fatal if it fails. -/
def commitOutcome (env : DbEnv) : Outcome :=
  match env.commitErr with
  | some e => .fatal (.couldNotCommit e)
  | none => .ok

/-- `ResolveTestRecord(tableName, stringID, opts...)` of the transactional variant
(src/manager.go, second unit, lines 122–160). -/
def ResolveTestRecord (dbMan : DbManager) (env : DbEnv) (tableName : String)
    (stringID : String) (opts : List RelationValuesOption) : RunResult :=
  match relationValues dbMan tableName opts with
  | .error f => ⟨dbMan, [], .fatal f⟩
  | .ok values =>
    match env.beginErr with
    | some e => ⟨dbMan, [], .fatal (.couldNotStartTransaction e)⟩
    | none =>
      let checked := checkIfExisting env tableName values
      let evs := Event.beganTx :: checked.1
      match checked.2 with
      | some .noRows =>
        let b := insertQueryFor tableName values
        match b.toSql with
        | .error e =>
          ⟨dbMan, evs ++ [.rolledBack],
            rollbackThen env (.couldNotGenerateSql tableName e)⟩
        | .ok q =>
          match env.insertExec q with
          | some e =>
            ⟨dbMan, evs ++ [.ranInsert q, .rolledBack],
              rollbackThen env (.couldNotCreateRecord tableName e)⟩
          | none =>
            ⟨dbMan, evs ++ [.ranInsert q, .committed], commitOutcome env⟩
      | some (.other e) =>
        ⟨dbMan, evs ++ [.rolledBack],
          rollbackThen env (.failedDuringCheckIfExisting e)⟩
      | none =>
        ⟨dbMan, evs ++ [.committed], commitOutcome env⟩

end Tx

/-- `insertBuilder` of the single-statement variants: bound to the db handle via
`RunWith`, `Insert(tableName)`. -/
def insertBuilderRunWith (tableName : String) : InsertQuery :=
  { table := tableName, setMap := [], suffix := none }

/-- `Create(tableName, opts...)` (src/unnamed/part_000, lines 49–58): a single insert
carrying `Suffix("ON CONFLICT DO NOTHING")`, no transaction, no existence check.
the squirrel `.Query()` method first builds the statement (`ToSql`), returning any construction
error without executing; both construction and execution errors surface through the
one `err` check. -/
def Create (dbMan : DbManager) (env : DbEnv) (tableName : String)
    (opts : List RelationValuesOption) : RunResult :=
  match relationValues dbMan tableName opts with
  | .error f => ⟨dbMan, [], .fatal f⟩
  | .ok values =>
    let b := { insertBuilderRunWith tableName with
               setMap := values, suffix := some "ON CONFLICT DO NOTHING" }
    match b.toSql with
    | .error e => ⟨dbMan, [], .fatal (.couldNotCreateRecord tableName e)⟩
    | .ok q =>
      match env.insertExec q with
      | some e => ⟨dbMan, [.ranInsert q], .fatal (.couldNotCreateRecord tableName e)⟩
      | none => ⟨dbMan, [.ranInsert q], .ok⟩

namespace Simple

/-- `ResolveTestRecord(tableName, opts...)` of the simplified variant
(src/manager.go, first unit, lines 41–50): textually the same body as `Create`. -/
def ResolveTestRecord (dbMan : DbManager) (env : DbEnv) (tableName : String)
    (opts : List RelationValuesOption) : RunResult :=
  match relationValues dbMan tableName opts with
  | .error f => ⟨dbMan, [], .fatal f⟩
  | .ok values =>
    let b := { insertBuilderRunWith tableName with
               setMap := values, suffix := some "ON CONFLICT DO NOTHING" }
    match b.toSql with
    | .error e => ⟨dbMan, [], .fatal (.couldNotCreateRecord tableName e)⟩
    | .ok q =>
      match env.insertExec q with
      | some e => ⟨dbMan, [.ranInsert q], .fatal (.couldNotCreateRecord tableName e)⟩
      | none => ⟨dbMan, [.ranInsert q], .ok⟩

end Simple

/-! Basic lemmas about the Go-map model. -/

theorem RelationValues.get_nil (k : String) : RelationValues.get [] k = none := rfl

theorem RelationValues.get_cons (p : String × Value) (ps : RelationValues) (k : String) :
    RelationValues.get (p :: ps) k =
      if p.1 == k then some p.2 else RelationValues.get ps k := by
  cases h : p.1 == k <;>
    simp [RelationValues.get, List.find?_cons, h]

theorem RelationValues.get_set_same (m : RelationValues) (k : String) (v : Value) :
    (m.set k v).get k = some v := by
  induction m with
  | nil => simp [RelationValues.set, RelationValues.get_cons]
  | cons p ps ih =>
    cases h : p.1 == k with
    | true => simp [RelationValues.set, h, RelationValues.get_cons]
    | false => simp [RelationValues.set, h, RelationValues.get_cons, ih]

theorem RelationValues.get_set_ne (m : RelationValues) (k k' : String) (v : Value)
    (h : k' ≠ k) : (m.set k v).get k' = m.get k' := by
  have hb : (k == k') = false := by
    simp only [beq_eq_false_iff_ne, ne_eq]
    exact fun he => h he.symm
  induction m with
  | nil => simp [RelationValues.set, RelationValues.get_cons, hb, RelationValues.get_nil]
  | cons p ps ih =>
    cases hp : p.1 == k with
    | true =>
      have hpk : p.1 = k := by simpa using hp
      have hpk' : (k == k') = false := hb
      simp [RelationValues.set, hp, RelationValues.get_cons, hpk, hpk']
    | false =>
      simp [RelationValues.set, hp, RelationValues.get_cons, ih]

/-- The value assigned to key `k` by the last assignment in `ps` that touches `k`,
if any: the net effect of a sequence of `SetFieldValue` overrides on one key. -/
def lastAssign? : List (String × Value) → String → Option Value
  | [], _ => none
  | p :: ps, k =>
    match lastAssign? ps k with
    | some w => some w
    | none => if p.1 == k then some p.2 else none

theorem foldl_set_get (ps : List (String × Value)) (m : RelationValues) (k : String) :
    (ps.foldl (fun values p => values.set p.1 p.2) m).get k =
      match lastAssign? ps k with
      | some w => some w
      | none => m.get k := by
  induction ps generalizing m with
  | nil => simp [lastAssign?]
  | cons p ps ih =>
    simp only [List.foldl_cons, lastAssign?]
    rw [ih]
    cases hl : lastAssign? ps k with
    | some w => simp
    | none =>
      cases hb : p.1 == k with
      | true =>
        have hpk : p.1 = k := by simpa using hb
        subst hpk
        simp [RelationValues.get_set_same]
      | false =>
        have hne : k ≠ p.1 := by
          intro he
          simp [he] at hb
        simp [RelationValues.get_set_ne _ _ _ _ hne]

theorem RelationValues.get_eq_none_iff (m : RelationValues) (k : String) :
    m.get k = none ↔ k ∉ m.map Prod.fst := by
  induction m with
  | nil => simp [RelationValues.get_nil]
  | cons p ps ih =>
    rw [RelationValues.get_cons]
    cases hb : p.1 == k with
    | true =>
      have hpk : p.1 = k := by simpa using hb
      simp [hpk]
    | false =>
      have hpk : ¬(p.1 = k) := by simpa using hb
      simp [ih, fun he : k = p.1 => hpk he.symm]
      exact fun _ he => hpk he.symm

theorem lastAssign?_eq_none_of_not_mem (ps : List (String × Value)) (k : String)
    (h : k ∉ ps.map Prod.fst) : lastAssign? ps k = none := by
  induction ps with
  | nil => rfl
  | cons p ps ih =>
    simp only [List.map_cons, List.mem_cons, not_or] at h
    simp only [lastAssign?, ih h.2]
    have hb : (p.1 == k) = false := by
      simp only [beq_eq_false_iff_ne, ne_eq]
      exact fun he => h.1 he.symm
    simp [hb]

theorem lastAssign?_mem_of_some (ps : List (String × Value)) (k : String) (w : Value)
    (h : lastAssign? ps k = some w) : k ∈ ps.map Prod.fst := by
  by_contra hc
  rw [lastAssign?_eq_none_of_not_mem ps k hc] at h
  exact Option.noConfusion h

theorem lastAssign?_eq_get_of_nodup (d : RelationValues) (k : String)
    (hnd : (d.map Prod.fst).Nodup) : lastAssign? d k = d.get k := by
  induction d with
  | nil => rfl
  | cons p ps ih =>
    simp only [List.map_cons, List.nodup_cons] at hnd
    rw [RelationValues.get_cons]
    simp only [lastAssign?, ih hnd.2]
    cases hg : RelationValues.get ps k with
    | some w =>
      have hkmem : k ∈ ps.map Prod.fst := by
        by_contra hc
        rw [(RelationValues.get_eq_none_iff ps k).mpr hc] at hg
        exact Option.noConfusion hg
      have hb : (p.1 == k) = false := by
        simp only [beq_eq_false_iff_ne, ne_eq]
        exact fun he => hnd.1 (he ▸ hkmem)
      simp [hb]
    | none => rfl

theorem copyValues_get (d : RelationValues) (k : String)
    (hnd : (d.map Prod.fst).Nodup) : (copyValues d).get k = d.get k := by
  unfold copyValues
  rw [foldl_set_get, lastAssign?_eq_get_of_nodup d k hnd]
  cases hg : RelationValues.get d k <;> simp [RelationValues.get_nil]

theorem set_append_of_not_mem (m : RelationValues) (k : String) (v : Value)
    (h : k ∉ m.map Prod.fst) : m.set k v = m ++ [(k, v)] := by
  induction m with
  | nil => rfl
  | cons p ps ih =>
    simp only [List.map_cons, List.mem_cons, not_or] at h
    have hb : (p.1 == k) = false := by
      simp only [beq_eq_false_iff_ne, ne_eq]
      exact fun he => h.1 he.symm
    simp [RelationValues.set, hb, ih h.2]

theorem foldl_parse_eq_append (l : List (String × Value)) (acc : RelationValues)
    (hnd : (l.map Prod.fst).Nodup)
    (hdisj : ∀ k ∈ l.map Prod.fst, k ∉ acc.map Prod.fst) :
    l.foldl (fun values p => if p.2.isSqlizer then values else values.set p.1 p.2) acc
      = acc ++ l.filter (fun p => !p.2.isSqlizer) := by
  induction l generalizing acc with
  | nil => simp
  | cons p ps ih =>
    simp only [List.map_cons, List.nodup_cons] at hnd
    simp only [List.foldl_cons]
    by_cases hs : p.2.isSqlizer = true
    · rw [if_pos hs]
      rw [ih acc hnd.2 (fun k hk => hdisj k (by simp [hk]))]
      simp [List.filter_cons, hs]
    · have hsf : p.2.isSqlizer = false := by
        cases hbool : p.2.isSqlizer
        · rfl
        · exact absurd hbool hs
      rw [if_neg hs]
      rw [set_append_of_not_mem acc p.1 p.2 (hdisj p.1 (by simp))]
      rw [ih (acc ++ [(p.1, p.2)]) hnd.2 ?_]
      · simp [List.filter_cons, hsf]
      · intro k hk
        simp only [List.map_append, List.map_cons, List.map_nil, List.mem_append,
          List.mem_singleton, not_or]
        refine ⟨hdisj k (by simp [hk]), ?_⟩
        exact fun he => hnd.1 (he ▸ hk)

theorem parseSelectValues_eq_filter (m : RelationValues)
    (hnd : (m.map Prod.fst).Nodup) :
    parseSelectValues m = m.filter (fun p => !p.2.isSqlizer) := by
  unfold parseSelectValues
  rw [foldl_parse_eq_append m [] hnd (by simp)]
  simp

theorem foldl_parse_all_expr (m : List (String × Value))
    (h : ∀ p ∈ m, p.2.isSqlizer = true) (acc : RelationValues) :
    m.foldl (fun values p => if p.2.isSqlizer then values else values.set p.1 p.2) acc
      = acc := by
  induction m generalizing acc with
  | nil => rfl
  | cons p ps ih =>
    simp only [List.foldl_cons, if_pos (h p (by simp))]
    exact ih (fun q hq => h q (by simp [hq])) acc

theorem parseSelectValues_nil_of_all_expr (m : RelationValues)
    (h : ∀ p ∈ m, p.2.isSqlizer = true) : parseSelectValues m = [] :=
  foldl_parse_all_expr m h []

/-! Path lemmas for the transactional variant: one lemma per arm of the state machine,
shared by the claim theorems below. -/

theorem Tx.insertQueryFor_setMap (t : String) (v : RelationValues) :
    (Tx.insertQueryFor t v).setMap = v := rfl

theorem tx_found_path (st : DbManager) (env : DbEnv) (tableName stringID : String)
    (opts : List RelationValuesOption) (values : RelationValues)
    (hv : relationValues st tableName opts = .ok values)
    (hb : env.beginErr = none)
    (hcheck : env.check (Tx.checkQueryFor tableName values) = .found) :
    Tx.ResolveTestRecord st env tableName stringID opts =
      ⟨st, [.beganTx, .ranCheckQuery (Tx.checkQueryFor tableName values), .committed],
        Tx.commitOutcome env⟩ := by
  simp [Tx.ResolveTestRecord, Tx.checkIfExisting, hv, hb, hcheck]

theorem tx_noRows_insert_ok_path (st : DbManager) (env : DbEnv)
    (tableName stringID : String)
    (opts : List RelationValuesOption) (values : RelationValues)
    (hv : relationValues st tableName opts = .ok values)
    (hb : env.beginErr = none)
    (hcheck : env.check (Tx.checkQueryFor tableName values) = .noRows)
    (hne : values ≠ [])
    (hins : env.insertExec (Tx.insertQueryFor tableName values) = none) :
    Tx.ResolveTestRecord st env tableName stringID opts =
      ⟨st, [.beganTx, .ranCheckQuery (Tx.checkQueryFor tableName values),
            .ranInsert (Tx.insertQueryFor tableName values), .committed],
        Tx.commitOutcome env⟩ := by
  have hemp : values.isEmpty = false := by
    cases values with
    | nil => exact absurd rfl hne
    | cons a l => rfl
  simp [Tx.ResolveTestRecord, Tx.checkIfExisting, hv, hb, hcheck,
    InsertQuery.toSql, Tx.insertQueryFor_setMap, hemp, hins]

theorem tx_check_failure_path (st : DbManager) (env : DbEnv)
    (tableName stringID : String)
    (opts : List RelationValuesOption) (values : RelationValues) (e : String)
    (hv : relationValues st tableName opts = .ok values)
    (hb : env.beginErr = none)
    (hcheck : env.check (Tx.checkQueryFor tableName values) = .failure e) :
    Tx.ResolveTestRecord st env tableName stringID opts =
      ⟨st, [.beganTx, .ranCheckQuery (Tx.checkQueryFor tableName values), .rolledBack],
        Tx.rollbackThen env (.failedDuringCheckIfExisting e)⟩ := by
  simp [Tx.ResolveTestRecord, Tx.checkIfExisting, hv, hb, hcheck]

theorem tx_noRows_insert_fail_path (st : DbManager) (env : DbEnv)
    (tableName stringID : String)
    (opts : List RelationValuesOption) (values : RelationValues) (e : String)
    (hv : relationValues st tableName opts = .ok values)
    (hb : env.beginErr = none)
    (hcheck : env.check (Tx.checkQueryFor tableName values) = .noRows)
    (hne : values ≠ [])
    (hins : env.insertExec (Tx.insertQueryFor tableName values) = some e) :
    Tx.ResolveTestRecord st env tableName stringID opts =
      ⟨st, [.beganTx, .ranCheckQuery (Tx.checkQueryFor tableName values),
            .ranInsert (Tx.insertQueryFor tableName values), .rolledBack],
        Tx.rollbackThen env (.couldNotCreateRecord tableName e)⟩ := by
  have hemp : values.isEmpty = false := by
    cases values with
    | nil => exact absurd rfl hne
    | cons a l => rfl
  simp [Tx.ResolveTestRecord, Tx.checkIfExisting, hv, hb, hcheck,
    InsertQuery.toSql, Tx.insertQueryFor_setMap, hemp, hins]

theorem tx_noRows_tosql_fail_path (st : DbManager) (env : DbEnv)
    (tableName stringID : String)
    (opts : List RelationValuesOption) (values : RelationValues)
    (hv : relationValues st tableName opts = .ok values)
    (hb : env.beginErr = none)
    (hcheck : env.check (Tx.checkQueryFor tableName values) = .noRows)
    (hemp : values = []) :
    Tx.ResolveTestRecord st env tableName stringID opts =
      ⟨st, [.beganTx, .ranCheckQuery (Tx.checkQueryFor tableName values), .rolledBack],
        Tx.rollbackThen env (.couldNotGenerateSql tableName
          "insert statements must have at least one set of values")⟩ := by
  subst hemp
  simp [Tx.ResolveTestRecord, Tx.checkIfExisting, hv, hb, hcheck,
    InsertQuery.toSql, Tx.insertQueryFor_setMap]

/-! Concrete fixtures used by the witness theorems, mirroring the README example. -/

def exampleUsersDefaults : RelationValues :=
  [("id", .lit "u1"), ("name", .lit "Alice"), ("created_at", .expr "CURRENT_TIMESTAMP")]

def exampleStampsDefaults : RelationValues :=
  [("created_at", .expr "CURRENT_TIMESTAMP")]

def exampleDefaults : List (String × RelationValues) :=
  [("users", exampleUsersDefaults), ("stamps", exampleStampsDefaults)]

def exampleManager : DbManager := ⟨exampleDefaults⟩

def exampleResolved : RelationValues :=
  [("id", .lit "u1"), ("name", .lit "Alice"), ("created_at", .expr "CURRENT_TIMESTAMP")]

def okEnvNoRows : DbEnv :=
  { beginErr := none, check := fun _ => .noRows, insertExec := fun _ => none,
    rollbackErr := none, commitErr := none }

def okEnvFound : DbEnv :=
  { beginErr := none, check := fun _ => .found, insertExec := fun _ => none,
    rollbackErr := none, commitErr := none }

def failCheckEnv : DbEnv :=
  { beginErr := none, check := fun _ => .failure "boom", insertExec := fun _ => none,
    rollbackErr := none, commitErr := none }

def failInsertEnv : DbEnv :=
  { beginErr := none, check := fun _ => .noRows, insertExec := fun _ => some "duplicate key",
    rollbackErr := none, commitErr := none }

/-! Claim theorems. -/

/-- Claim C1: in the transactional `ResolveTestRecord`, once the resolved value set is
computed and the transaction is open, a no-matching-row check result leads to an insert
of the full resolved value set (expression-valued fields included, via `setMap = values`)
followed by a commit, and a row-found check result leads to a commit with no insert
performed. -/
theorem c1_resolve_paths (st : DbManager) (env : DbEnv) (tableName stringID : String)
    (opts : List RelationValuesOption) (values : RelationValues)
    (hv : relationValues st tableName opts = .ok values)
    (hb : env.beginErr = none)
    (hc : env.commitErr = none) :
    (env.check (Tx.checkQueryFor tableName values) = .noRows →
      values ≠ [] →
      env.insertExec (Tx.insertQueryFor tableName values) = none →
      Tx.ResolveTestRecord st env tableName stringID opts =
        ⟨st, [.beganTx, .ranCheckQuery (Tx.checkQueryFor tableName values),
              .ranInsert (Tx.insertQueryFor tableName values), .committed], .ok⟩) ∧
    (env.check (Tx.checkQueryFor tableName values) = .found →
      Tx.ResolveTestRecord st env tableName stringID opts =
        ⟨st, [.beganTx, .ranCheckQuery (Tx.checkQueryFor tableName values), .committed],
          .ok⟩) := by
  have hco : Tx.commitOutcome env = .ok := by simp [Tx.commitOutcome, hc]
  constructor
  · intro hcheck hne hins
    rw [tx_noRows_insert_ok_path st env tableName stringID opts values hv hb hcheck
      hne hins, hco]
  · intro hcheck
    rw [tx_found_path st env tableName stringID opts values hv hb hcheck, hco]

theorem c1_resolve_paths_witness :
    relationValues exampleManager "users" [] = .ok exampleResolved ∧
    okEnvNoRows.beginErr = none ∧
    okEnvNoRows.commitErr = none ∧
    exampleResolved ≠ [] ∧
    Tx.ResolveTestRecord exampleManager okEnvNoRows "users" "sid" [] =
      ⟨exampleManager,
        [.beganTx, .ranCheckQuery (Tx.checkQueryFor "users" exampleResolved),
         .ranInsert (Tx.insertQueryFor "users" exampleResolved), .committed], .ok⟩ ∧
    Tx.ResolveTestRecord exampleManager okEnvFound "users" "sid" [] =
      ⟨exampleManager,
        [.beganTx, .ranCheckQuery (Tx.checkQueryFor "users" exampleResolved),
         .committed], .ok⟩ :=
  ⟨rfl, rfl, rfl, by decide,
   (c1_resolve_paths exampleManager okEnvNoRows "users" "sid" [] exampleResolved
      rfl rfl rfl).1 rfl (by decide) rfl,
   (c1_resolve_paths exampleManager okEnvFound "users" "sid" [] exampleResolved
      rfl rfl rfl).2 rfl⟩

/-- Claim C2: `checkIfExisting` issues exactly one select-nothing query (`Select("")`)
against the relation, filtered by equality on precisely the non-expression-valued fields
of the resolved value set (every expression-valued field is excluded from the filter),
limited to one row. -/
theorem c2_check_query_shape (env : DbEnv) (tableName : String) (values : RelationValues)
    (hnd : (values.map Prod.fst).Nodup) :
    (Tx.checkIfExisting env tableName values).1 =
      [Event.ranCheckQuery
        { columns := [""], table := tableName,
          whereEq := values.filter (fun p => !p.2.isSqlizer), limit := some 1 }] := by
  simp [Tx.checkIfExisting, Tx.checkQueryFor, selectBuilder,
    parseSelectValues_eq_filter values hnd]

theorem c2_check_query_shape_witness :
    (exampleResolved.map Prod.fst).Nodup ∧
    (Tx.checkIfExisting okEnvNoRows "users" exampleResolved).1 =
      [Event.ranCheckQuery
        { columns := [""], table := "users",
          whereEq := exampleResolved.filter (fun p => !p.2.isSqlizer),
          limit := some 1 }] :=
  ⟨by decide, c2_check_query_shape okEnvNoRows "users" exampleResolved (by decide)⟩

/-- Claim C3: a relation name absent from the default value table makes every call —
transactional `ResolveTestRecord`, `Create`, and the simplified `ResolveTestRecord`,
with any overrides — fail fatally with the configuration error while performing no
database event at all: no transaction is opened and no query runs. -/
theorem c3_unknown_relation (st : DbManager) (tableName : String)
    (h : lookupRelation st.defaultRelationValues tableName = none)
    (env : DbEnv) (stringID : String) (opts : List RelationValuesOption) :
    Tx.ResolveTestRecord st env tableName stringID opts =
        ⟨st, [], .fatal (.noDefaultValues tableName)⟩ ∧
    Create st env tableName opts = ⟨st, [], .fatal (.noDefaultValues tableName)⟩ ∧
    Simple.ResolveTestRecord st env tableName opts =
        ⟨st, [], .fatal (.noDefaultValues tableName)⟩ := by
  have hv : relationValues st tableName opts = .error (.noDefaultValues tableName) := by
    simp [relationValues, getDefaultRelationValues, h]
  refine ⟨?_, ?_, ?_⟩ <;>
    simp [Tx.ResolveTestRecord, Create, Simple.ResolveTestRecord, hv]

theorem c3_unknown_relation_witness :
    lookupRelation exampleManager.defaultRelationValues "orders" = none ∧
    Tx.ResolveTestRecord exampleManager okEnvNoRows "orders" "sid" [] =
      ⟨exampleManager, [], .fatal (.noDefaultValues "orders")⟩ ∧
    Create exampleManager okEnvNoRows "orders" [] =
      ⟨exampleManager, [], .fatal (.noDefaultValues "orders")⟩ ∧
    Simple.ResolveTestRecord exampleManager okEnvNoRows "orders" [] =
      ⟨exampleManager, [], .fatal (.noDefaultValues "orders")⟩ :=
  ⟨rfl, c3_unknown_relation exampleManager "orders" rfl okEnvNoRows "sid" []⟩

/-- Claim C4 as stated is refuted at a concrete input: when the existence check fails
(with error "boom" on relation "users"), the transactional variant aborts with the fatal
`failedDuringCheckIfExisting "boom"`, whose report carries no relation name — contrary to
the claim that every such failure reports the relation name together with the error. -/
theorem c4_counterexample :
    (Tx.ResolveTestRecord exampleManager failCheckEnv "users" "sid" []).outcome =
      .fatal (.failedDuringCheckIfExisting "boom") ∧
    Fatal.relationName? (.failedDuringCheckIfExisting "boom") = none :=
  ⟨rfl, rfl⟩

/-- Claim C4 (amended): in the transactional variant every non-`ErrNoRows` failure of the
existence check and every failure of the insert (construction or execution) first rolls
back the open transaction and then fails fatally; insert failures report the relation
name and the underlying error, while existence-check failures report only the underlying
error; a failure of the rollback itself escalates to its own fatal error rather than
being swallowed. -/
theorem c4_rollback_then_fatal (st : DbManager) (env : DbEnv) (tableName stringID : String)
    (opts : List RelationValuesOption) (values : RelationValues)
    (hv : relationValues st tableName opts = .ok values)
    (hb : env.beginErr = none) :
    (∀ e, env.check (Tx.checkQueryFor tableName values) = .failure e →
      Tx.ResolveTestRecord st env tableName stringID opts =
        ⟨st, [.beganTx, .ranCheckQuery (Tx.checkQueryFor tableName values), .rolledBack],
          Tx.rollbackThen env (.failedDuringCheckIfExisting e)⟩) ∧
    (∀ e, env.check (Tx.checkQueryFor tableName values) = .noRows → values ≠ [] →
      env.insertExec (Tx.insertQueryFor tableName values) = some e →
      Tx.ResolveTestRecord st env tableName stringID opts =
        ⟨st, [.beganTx, .ranCheckQuery (Tx.checkQueryFor tableName values),
              .ranInsert (Tx.insertQueryFor tableName values), .rolledBack],
          Tx.rollbackThen env (.couldNotCreateRecord tableName e)⟩) ∧
    (env.check (Tx.checkQueryFor tableName values) = .noRows → values = [] →
      Tx.ResolveTestRecord st env tableName stringID opts =
        ⟨st, [.beganTx, .ranCheckQuery (Tx.checkQueryFor tableName values), .rolledBack],
          Tx.rollbackThen env (.couldNotGenerateSql tableName
            "insert statements must have at least one set of values")⟩) ∧
    (∀ f, Tx.rollbackThen env f =
      match env.rollbackErr with
      | some e => Outcome.fatal (.failedToRollback e)
      | none => Outcome.fatal f) ∧
    (∀ e, (Fatal.couldNotCreateRecord tableName e).relationName? = some tableName) ∧
    (∀ e, (Fatal.failedDuringCheckIfExisting e).relationName? = none) :=
  ⟨fun e hc => tx_check_failure_path st env tableName stringID opts values e hv hb hc,
   fun e hc hne hins =>
     tx_noRows_insert_fail_path st env tableName stringID opts values e hv hb hc hne hins,
   fun hc hemp => tx_noRows_tosql_fail_path st env tableName stringID opts values hv hb hc hemp,
   fun _ => rfl, fun _ => rfl, fun _ => rfl⟩

theorem c4_rollback_then_fatal_witness :
    relationValues exampleManager "users" [] = .ok exampleResolved ∧
    failCheckEnv.beginErr = none ∧
    failCheckEnv.check (Tx.checkQueryFor "users" exampleResolved) = .failure "boom" ∧
    Tx.ResolveTestRecord exampleManager failCheckEnv "users" "sid" [] =
      ⟨exampleManager,
        [.beganTx, .ranCheckQuery (Tx.checkQueryFor "users" exampleResolved), .rolledBack],
        Tx.rollbackThen failCheckEnv (.failedDuringCheckIfExisting "boom")⟩ :=
  ⟨rfl, rfl, rfl,
   (c4_rollback_then_fatal exampleManager failCheckEnv "users" "sid" [] exampleResolved
      rfl rfl).1 "boom" rfl⟩

/-- Claim C5: overrides are applied in call order to a copy of the default values of the relation,
and on a key collision the value of the last `SetFieldValue` override for the key wins
over earlier overrides and over the default value for that key. -/
theorem c5_later_overrides_win (st : DbManager) (relationName : String)
    (d : RelationValues) (ps : List (String × Value)) (k : String)
    (values : RelationValues)
    (hd : lookupRelation st.defaultRelationValues relationName = some d)
    (hnd : (d.map Prod.fst).Nodup)
    (hv : relationValues st relationName
            (ps.map (fun p => SetFieldValue p.1 p.2)) = .ok values) :
    values.get k = match lastAssign? ps k with
      | some v => some v
      | none => d.get k := by
  simp only [relationValues, getDefaultRelationValues, hd] at hv
  rw [List.foldl_map] at hv
  simp only [SetFieldValue, Except.ok.injEq] at hv
  subst hv
  rw [foldl_set_get]
  cases hL : lastAssign? ps k with
  | some w => rfl
  | none => simp [copyValues_get d k hnd]

def exampleOverrides : List (String × Value) :=
  [("id", .lit "u2"), ("id", .lit "u3")]

def exampleOverridden : RelationValues :=
  [("id", .lit "u3"), ("name", .lit "Alice"), ("created_at", .expr "CURRENT_TIMESTAMP")]

theorem c5_later_overrides_win_witness :
    lookupRelation exampleManager.defaultRelationValues "users" =
      some exampleUsersDefaults ∧
    (exampleUsersDefaults.map Prod.fst).Nodup ∧
    relationValues exampleManager "users"
        (exampleOverrides.map (fun p => SetFieldValue p.1 p.2)) = .ok exampleOverridden ∧
    exampleOverridden.get "id" =
      (match lastAssign? exampleOverrides "id" with
       | some v => some v
       | none => exampleUsersDefaults.get "id") :=
  ⟨rfl, by decide, rfl,
   c5_later_overrides_win exampleManager "users" exampleUsersDefaults exampleOverrides
     "id" exampleOverridden rfl (by decide) rfl⟩

/-- Claim C6: for a relation present in the default value table, resolving with zero
overrides yields a value set that agrees with the stored defaults on every key — the
same keys and the same values. -/
theorem c6_no_overrides (st : DbManager) (relationName : String) (d : RelationValues)
    (k : String) (values : RelationValues)
    (hd : lookupRelation st.defaultRelationValues relationName = some d)
    (hnd : (d.map Prod.fst).Nodup)
    (hv : relationValues st relationName [] = .ok values) :
    values.get k = d.get k := by
  simp only [relationValues, getDefaultRelationValues, hd, List.foldl_nil,
    Except.ok.injEq] at hv
  subst hv
  exact copyValues_get d k hnd

theorem c6_no_overrides_witness :
    lookupRelation exampleManager.defaultRelationValues "users" =
      some exampleUsersDefaults ∧
    (exampleUsersDefaults.map Prod.fst).Nodup ∧
    relationValues exampleManager "users" [] = .ok exampleResolved ∧
    exampleResolved.get "name" = exampleUsersDefaults.get "name" :=
  ⟨rfl, by decide, rfl,
   c6_no_overrides exampleManager "users" exampleUsersDefaults "name" exampleResolved
     rfl (by decide) rfl⟩

/-- Claim C7: no operation mutates the default value table — after any call of any of
the three variants, with any relation name and any override sequence, the manager state
carries the same `defaultRelationValues` as before (every read of the defaults goes
through the `copyValues` copy, and overrides are applied to that copy). -/
theorem c7_defaults_never_mutated (st : DbManager) (env : DbEnv)
    (tableName stringID : String) (opts : List RelationValuesOption) :
    (Tx.ResolveTestRecord st env tableName stringID opts).manager.defaultRelationValues =
      st.defaultRelationValues ∧
    (Create st env tableName opts).manager.defaultRelationValues =
      st.defaultRelationValues ∧
    (Simple.ResolveTestRecord st env tableName opts).manager.defaultRelationValues =
      st.defaultRelationValues := by
  refine ⟨?_, ?_, ?_⟩
  · simp only [Tx.ResolveTestRecord]
    repeat' split
    all_goals rfl
  · simp only [Create]
    repeat' split
    all_goals rfl
  · simp only [Simple.ResolveTestRecord]
    repeat' split
    all_goals rfl

/-- The single statement `Create` issues:
`insertBuilder(tableName).SetMap(sq.Eq(values)).Suffix("ON CONFLICT DO NOTHING")`. -/
def conflictInsertFor (tableName : String) (values : RelationValues) : InsertQuery :=
  { insertBuilderRunWith tableName with
    setMap := values, suffix := some "ON CONFLICT DO NOTHING" }

/-- Claim C8: `Create` opens no transaction and performs no existence check — with a
nonempty resolved value set its only database event is a single insert carrying the
`ON CONFLICT DO NOTHING` suffix, and it fails fatally exactly when executing that
statement reports an error (an ignored conflict reports none, so it does not abort). -/
theorem c8_create_single_insert (st : DbManager) (env : DbEnv) (tableName : String)
    (opts : List RelationValuesOption) (values : RelationValues)
    (hv : relationValues st tableName opts = .ok values)
    (hne : values ≠ []) :
    (Create st env tableName opts).events =
      [.ranInsert (conflictInsertFor tableName values)] ∧
    (conflictInsertFor tableName values).suffix = some "ON CONFLICT DO NOTHING" ∧
    ((Create st env tableName opts).outcome = .ok ↔
      env.insertExec (conflictInsertFor tableName values) = none) ∧
    (∀ e, env.insertExec (conflictInsertFor tableName values) = some e →
      (Create st env tableName opts).outcome =
        .fatal (.couldNotCreateRecord tableName e)) := by
  have hemp : values.isEmpty = false := by
    cases values with
    | nil => exact absurd rfl hne
    | cons a l => rfl
  have hrun : Create st env tableName opts =
      match env.insertExec (conflictInsertFor tableName values) with
      | some e =>
        ⟨st, [.ranInsert (conflictInsertFor tableName values)],
          .fatal (.couldNotCreateRecord tableName e)⟩
      | none =>
        ⟨st, [.ranInsert (conflictInsertFor tableName values)], .ok⟩ := by
    have hsm : (conflictInsertFor tableName values).setMap = values := rfl
    simp only [Create, hv]
    simp [InsertQuery.toSql, hsm, hemp, conflictInsertFor]
  refine ⟨?_, rfl, ?_, ?_⟩
  · rw [hrun]
    cases env.insertExec (conflictInsertFor tableName values) with
    | none => rfl
    | some e => rfl
  · rw [hrun]
    cases hins : env.insertExec (conflictInsertFor tableName values) with
    | none => simp
    | some e => simp
  · intro e he
    rw [hrun, he]

theorem c8_create_single_insert_witness :
    relationValues exampleManager "users" [] = .ok exampleResolved ∧
    exampleResolved ≠ [] ∧
    (Create exampleManager okEnvNoRows "users" []).events =
      [.ranInsert (conflictInsertFor "users" exampleResolved)] :=
  ⟨rfl, by decide,
   (c8_create_single_insert exampleManager okEnvNoRows "users" [] exampleResolved
      rfl (by decide)).1⟩

/-- Claim C9: the `stringID` parameter of the transactional `ResolveTestRecord` is dead —
two calls that differ only in it leave the same manager state, perform the same database
events (hence issue identical queries on an identical resolved value set) and produce
the same outcome. -/
theorem c9_stringID_unused (st : DbManager) (env : DbEnv) (tableName : String)
    (id1 id2 : String) (opts : List RelationValuesOption) :
    Tx.ResolveTestRecord st env tableName id1 opts =
      Tx.ResolveTestRecord st env tableName id2 opts := rfl

/-- A row satisfies the equality filter of the existence check when every condition of
the WHERE clause holds of it; an empty filter is satisfied by every row. -/
def rowMatches (filter : RelationValues) (row : RelationValues) : Bool :=
  filter.all (fun p => row.get p.1 == some p.2)

/-- Row-level semantics of running the existence check against a table holding `rows`:
the `LIMIT 1` select finds a row exactly when some row satisfies the whole filter. -/
def semCheck (rows : List RelationValues) (q : SelectQuery) : CheckResult :=
  if rows.any (rowMatches q.whereEq) then .found else .noRows

/-- An otherwise-healthy database whose target table holds exactly `rows`. -/
def semEnv (rows : List RelationValues) : DbEnv :=
  { beginErr := none, check := semCheck rows, insertExec := fun _ => none,
    rollbackErr := none, commitErr := none }

/-- Claim C10: when every field of the resolved value set is an opaque SQL-expression
placeholder, the existence-check filter is empty, so against any non-empty table the
check matches some row — whatever the rows contain — and the found path commits without
performing any insert. -/
theorem c10_all_expr_found (st : DbManager) (tableName stringID : String)
    (opts : List RelationValuesOption) (values : RelationValues)
    (hv : relationValues st tableName opts = .ok values)
    (hexpr : ∀ p ∈ values, p.2.isSqlizer = true) :
    parseSelectValues values = [] ∧
    ∀ rows : List RelationValues, rows ≠ [] →
      Tx.ResolveTestRecord st (semEnv rows) tableName stringID opts =
        ⟨st, [.beganTx, .ranCheckQuery (Tx.checkQueryFor tableName values), .committed],
          .ok⟩ := by
  have hps := parseSelectValues_nil_of_all_expr values hexpr
  refine ⟨hps, fun rows hrows => ?_⟩
  have hany : rows.any (rowMatches (parseSelectValues values)) = true := by
    rw [hps]
    cases rows with
    | nil => exact absurd rfl hrows
    | cons r rs => simp [rowMatches]
  have hcheck : (semEnv rows).check (Tx.checkQueryFor tableName values) = .found := by
    simp [semEnv, semCheck, Tx.checkQueryFor, selectBuilder, hany]
  rw [tx_found_path st (semEnv rows) tableName stringID opts values hv rfl hcheck]
  rfl

theorem c10_all_expr_found_witness :
    relationValues exampleManager "stamps" [] = .ok exampleStampsDefaults ∧
    exampleStampsDefaults.all (fun p => p.2.isSqlizer) = true ∧
    parseSelectValues exampleStampsDefaults = [] ∧
    Tx.ResolveTestRecord exampleManager (semEnv [[("x", Value.lit "v1")]])
        "stamps" "sid" [] =
      ⟨exampleManager,
        [.beganTx, .ranCheckQuery (Tx.checkQueryFor "stamps" exampleStampsDefaults),
         .committed], .ok⟩ := by
  have h := c10_all_expr_found exampleManager "stamps" "sid" [] exampleStampsDefaults
    rfl (by decide)
  exact ⟨rfl, rfl, h.1, h.2 [[("x", Value.lit "v1")]] (by decide)⟩
